import Mathlib

/-!
Shallow embedding of the AgriMitra decision-synthesis core
(supervisor, agronomist, economist and geospatial agents and the weather
service) together with proofs of its specified properties.

Float values of the source (prices, precipitation, NDVI, confidence
scores) are modelled as rationals: the program only compares and
linearly combines them in small ranges, so exact rational arithmetic is
a faithful model.  Python dictionaries that may lack a key are modelled
as structures with `Option` fields or explicit boolean presence flags.
-/

namespace AgriMitra

/-- Decision cascade of `SupervisorAgent._determine_action_and_urgency`
(supervisor_agent.py, lines 164-188).  Python truthiness of the
`storm_risk` and `crop_ready` booleans is modelled by equality with
`true`, the membership test on `["excellent", "good"]` by a disjunction,
and the float comparison `price_difference >= 10` over the rationals.
Returns (action, urgency, primary_factor). -/
def determine_action_and_urgency (crop_ready storm_risk : Bool)
    (spoilage_risk market_opportunity : String) (price_difference : ℚ) :
    String × String × String :=
  if storm_risk = true ∧ crop_ready = true then ("harvest_now", "critical", "storm_risk")
  else if storm_risk = true ∧ crop_ready = false then ("harvest_now", "high", "storm_risk")
  else if spoilage_risk = "critical" then ("harvest_now", "high", "spoilage_risk")
  else if spoilage_risk = "high" then ("harvest_now", "medium", "spoilage_risk")
  else if (market_opportunity = "excellent" ∨ market_opportunity = "good") ∧ crop_ready = true then
    if 10 ≤ price_difference then ("sell_now", "medium", "market_opportunity")
    else ("sell_now", "low", "market_opportunity")
  else if spoilage_risk = "medium" ∧ crop_ready = true then ("harvest_now", "low", "spoilage_risk")
  else ("wait", "low", "optimal_timing")

/-- `SupervisorAgent._assess_crop_readiness` (supervisor_agent.py, lines
156-162): `geospatial_data.get("ndvi")` is modelled as an `Option`;
a missing NDVI defaults to ready, otherwise ready iff `ndvi > 0.6`. -/
def assess_crop_readiness (ndvi : Option ℚ) : Bool :=
  match ndvi with
  | none => true
  | some v => decide (6/10 < v)

/-- The parts of the geospatial payload that
`SupervisorAgent._calculate_confidence_and_quality` reads: presence of
the `error` key, the `cached` flag (default `False`), and
`cache_age_days` (default 0; an integer, Python `timedelta.days`). -/
structure GeospatialData where
  has_error : Bool
  cached : Bool
  cache_age_days : ℤ

/-- The parts of the weather payload the confidence scoring reads. -/
structure WeatherData where
  has_error : Bool
  fallback_used : Bool

/-- The parts of the agronomist payload the confidence scoring reads;
`has_matched_rules` models truthiness of `matched_rules` (a non-empty
list). -/
structure AgronomistData where
  has_error : Bool
  has_matched_rules : Bool

/-- The parts of the economist payload the confidence scoring reads;
`has_best_market` models truthiness of `best_market`. -/
structure EconomistData where
  has_error : Bool
  fallback_used : Bool
  has_best_market : Bool

/-- Satellite branch of the confidence scoring (supervisor_agent.py,
lines 290-298): `error` key deducts 25, else `cached` false deducts 15,
else `cache_age_days > 3` deducts 10, else nothing. -/
def satellite_deduction (g : GeospatialData) : ℚ :=
  if g.has_error = true then 25
  else if g.cached = false then 15
  else if 3 < g.cache_age_days then 10
  else 0

/-- Weather branch of the confidence scoring (lines 300-305). -/
def weather_deduction (w : WeatherData) : ℚ :=
  if w.has_error = true then 20
  else if w.fallback_used = true then 15
  else 0

/-- Biological-rules branch of the confidence scoring (lines 307-312). -/
def rules_deduction (a : AgronomistData) : ℚ :=
  if a.has_error = true then 15
  else if a.has_matched_rules = false then 10
  else 0

/-- Market branch of the confidence scoring (lines 314-322). -/
def market_deduction (e : EconomistData) : ℚ :=
  if e.has_error = true then 10
  else if e.fallback_used = true then 5
  else if e.has_best_market = false then 10
  else 0

/-- Confidence before the final clamp: start at 100.0 and subtract the
four per-category deductions (supervisor_agent.py, lines 287-322). -/
def raw_confidence (g : GeospatialData) (w : WeatherData)
    (a : AgronomistData) (e : EconomistData) : ℚ :=
  100 - satellite_deduction g - weather_deduction w - rules_deduction a - market_deduction e

/-- `confidence = max(0.0, min(100.0, confidence))` (line 324). -/
def calculate_confidence (g : GeospatialData) (w : WeatherData)
    (a : AgronomistData) (e : EconomistData) : ℚ :=
  max 0 (min 100 (raw_confidence g w a e))

/-- Quality bucketing of the clamped confidence (lines 326-333). -/
def data_quality (confidence : ℚ) : String :=
  if 90 ≤ confidence then "excellent"
  else if 75 ≤ confidence then "good"
  else if 50 ≤ confidence then "fair"
  else "poor"

/-- `SupervisorAgent._calculate_confidence_and_quality` returns the pair
(confidence, data_quality). -/
def calculate_confidence_and_quality (g : GeospatialData) (w : WeatherData)
    (a : AgronomistData) (e : EconomistData) : ℚ × String :=
  (calculate_confidence g w a e, data_quality (calculate_confidence g w a e))

/-- One parsed forecast day as read by
`WeatherService.assess_storm_risk` (weather_service.py): the service
reads `precipitation.probability`, `precipitation.amount` and
`wind_speed` (default 0.0). -/
structure ForecastDay where
  precip_probability : ℚ
  precip_amount : ℚ
  wind_speed : ℚ
deriving DecidableEq

/-- Result record of `WeatherService.assess_storm_risk`. -/
structure StormRiskAssessment where
  has_storm_risk : Bool
  risk_window : Option String
  impact : Option String
deriving DecidableEq

/-- Storm criteria from weather_service.py line 173:
`precip_prob > 0.6 and precip_amount > 10.0`. -/
def is_storm_day (d : ForecastDay) : Bool :=
  decide (6/10 < d.precip_probability ∧ 10 < d.precip_amount)

/-- Impact wording chosen from the triggering day (weather_service.py,
lines 177-182). -/
def storm_impact (d : ForecastDay) : String :=
  if 50 < d.precip_amount ∨ 40 < d.wind_speed then
    "Heavy rain and strong winds expected. Harvest immediately to prevent crop damage."
  else if 25 < d.precip_amount then
    "Moderate rain expected. Consider harvesting soon to avoid quality loss."
  else
    "Light to moderate rain expected. Monitor conditions closely."

/-- The `for i, day in enumerate(next_48h)` loop of `assess_storm_risk`
(weather_service.py, lines 167-184): the first day meeting the storm
criteria wins and the loop breaks there; `i` is the enumeration index. -/
def assess_storm_risk_loop : Nat → List ForecastDay → StormRiskAssessment
  | _, [] => ⟨false, none, none⟩
  | i, d :: rest =>
    if is_storm_day d = true then
      ⟨true, some (if i = 0 then "next 24 hours" else "24-48 hours"), some (storm_impact d)⟩
    else assess_storm_risk_loop (i + 1) rest

/-- `WeatherService.assess_storm_risk` (weather_service.py, lines
147-190): scans `forecast[:2]` in order. -/
def assess_storm_risk (forecast : List ForecastDay) : StormRiskAssessment :=
  assess_storm_risk_loop 0 (forecast.take 2)

/-- Source record attached to a spoilage rule (agronomist_agent.py). -/
structure RuleSource where
  name : String
  type : String
  reference : String
  credibility : ℚ
deriving DecidableEq

/-- A spoilage rule as built by the agronomist agent
(agronomist_agent.py, lines 91-110). -/
structure SpoilageRule where
  id : String
  condition : String
  temp_min : ℚ
  temp_max : ℚ
  humidity_min : ℚ
  humidity_max : ℚ
  spoilage_time_hours : ℤ
  severity : String
  source : RuleSource
deriving DecidableEq

/-- Python `str.lower()` restricted to the ASCII crop names the program
handles, as a character-wise map. -/
def py_lower (s : String) : String :=
  ⟨s.data.map Char.toLower⟩

/-- The built-in tomato fallback rule of
`AgronomistAgent._get_default_rules` (agronomist_agent.py, 405-419). -/
def default_tomato_rule : SpoilageRule :=
  { id := "default_tomato"
    condition := "Default conservative rule (database unavailable)"
    temp_min := 0, temp_max := 50, humidity_min := 0, humidity_max := 100
    spoilage_time_hours := 72
    severity := "high"
    source := { name := "Default Rules", type := "FALLBACK"
                reference := "Conservative estimate", credibility := 1/2 } }

/-- The built-in onion fallback rule of
`AgronomistAgent._get_default_rules` (agronomist_agent.py, 420-434). -/
def default_onion_rule : SpoilageRule :=
  { id := "default_onion"
    condition := "Default conservative rule (database unavailable)"
    temp_min := 0, temp_max := 50, humidity_min := 0, humidity_max := 100
    spoilage_time_hours := 168
    severity := "medium"
    source := { name := "Default Rules", type := "FALLBACK"
                reference := "Conservative estimate", credibility := 1/2 } }

/-- `AgronomistAgent._get_default_rules` (agronomist_agent.py, lines
391-436): dispatch on `crop.lower()`. -/
def get_default_rules (crop : String) : List SpoilageRule :=
  if py_lower crop = "tomato" then [default_tomato_rule]
  else if py_lower crop = "onion" then [default_onion_rule]
  else []

/-- `AgronomistAgent.query_spoilage_rules` (agronomist_agent.py, lines
28-125) with the rule-store interaction abstracted: the store either
returns an ordered rule list or raises, and every raised exception is
caught and answered with `_get_default_rules(crop)`. -/
def query_spoilage_rules (store_result : Except String (List SpoilageRule))
    (crop : String) : List SpoilageRule :=
  match store_result with
  | Except.ok rules => rules
  | Except.error _ => get_default_rules crop

/-- Result record of `AgronomistAgent.calculate_spoilage_timeline`
(the fields the claims are about). -/
structure SpoilageTimeline where
  time_to_spoilage_hours : Option ℤ
  time_to_spoilage_display : String
  risk_level : String
deriving DecidableEq

/-- `AgronomistAgent.calculate_spoilage_timeline` (agronomist_agent.py,
lines 127-169).  Python floor division `//` is `Int.fdiv`. -/
def calculate_spoilage_timeline (rules : List SpoilageRule) : SpoilageTimeline :=
  match rules with
  | [] => ⟨none, "Unknown", "unknown"⟩
  | primary_rule :: _ =>
    let hours := primary_rule.spoilage_time_hours
    let display :=
      if hours < 24 then toString hours ++ " hours"
      else if hours < 168 then
        toString (hours.fdiv 24) ++ " day" ++ (if 1 < hours.fdiv 24 then "s" else "")
      else
        toString (hours.fdiv 168) ++ " week" ++ (if 1 < hours.fdiv 168 then "s" else "")
    ⟨some hours, display, primary_rule.severity⟩

/-- A market row as consumed by the economist agent selection helpers
(economist_agent.py): `name`, `price_per_kg` and `distance_km` are the
fields those helpers read. -/
structure Market where
  name : String
  price_per_kg : ℚ
  distance_km : ℚ
deriving DecidableEq

/-- Python `max(best :: rest, key=key)`: scans left to right and keeps
the current best, replacing it only on a strictly larger key, so the
first maximal element wins. -/
def max_by_key (key : Market → ℚ) (best : Market) : List Market → Market
  | [] => best
  | m :: rest => max_by_key key (if key best < key m then m else best) rest

/-- Python `min(best :: rest, key=key)`: first minimal element wins. -/
def min_by_key (key : Market → ℚ) (best : Market) : List Market → Market
  | [] => best
  | m :: rest => min_by_key key (if key m < key best then m else best) rest

/-- `EconomistAgent._select_highest_price_market` (economist_agent.py,
lines 146-161) on a non-empty list `hd :: tl`. -/
def select_highest_price_market (hd : Market) (tl : List Market) : Market :=
  max_by_key (fun m => m.price_per_kg) hd tl

/-- `net_price` from `EconomistAgent._select_best_market_with_distance`
(economist_agent.py, lines 182-183). -/
def net_price (transport_cost_per_km : ℚ) (m : Market) : ℚ :=
  m.price_per_kg - m.distance_km * transport_cost_per_km

/-- `EconomistAgent._select_best_market_with_distance`
(economist_agent.py, lines 163-185) on a non-empty list. -/
def select_best_market_with_distance (transport_cost_per_km : ℚ)
    (hd : Market) (tl : List Market) : Market :=
  max_by_key (net_price transport_cost_per_km) hd tl

/-- `min(markets, key=lambda m: m["distance_km"])`
(economist_agent.py, line 88). -/
def local_market (hd : Market) (tl : List Market) : Market :=
  min_by_key (fun m => m.distance_km) hd tl

/-- Python `round(x, 2)`.  CPython rounds the binary float half to even;
over the rationals this is modelled with Mathlib rounding to the nearest
hundredth, which agrees except on exact half-hundredths and in every
case stays within 1/200 of the argument. -/
def round2 (x : ℚ) : ℚ :=
  (round (100 * x) : ℤ) / 100

/-- The `price_difference` field built by
`EconomistAgent.get_market_recommendation` (economist_agent.py, lines
78-124): best market by the selected strategy minus the local market,
rounded to two decimals. -/
def market_price_difference (consider_distance : Bool)
    (transport_cost_per_km : ℚ) (hd : Market) (tl : List Market) : ℚ :=
  let best :=
    if consider_distance = true then
      select_best_market_with_distance transport_cost_per_km hd tl
    else select_highest_price_market hd tl
  round2 (best.price_per_kg - (local_market hd tl).price_per_kg)

/-- Scenario market used by the spec and witnesses. -/
def nagpur_market : Market := { name := "Nagpur", price_per_kg := 25, distance_km := 10 }

/-- Scenario market used by the spec and witnesses. -/
def mumbai_market : Market := { name := "Mumbai", price_per_kg := 30, distance_km := 150 }

/-- Scenario market used by the spec and witnesses. -/
def pune_market : Market := { name := "Pune", price_per_kg := 28, distance_km := 120 }

/-- A satellite-cache row as read by the geospatial agent; only
`created_at` matters to expiry, and the row may lack that key
(`"created_at" not in cached_data`), hence the `Option`.  Times are
POSIX seconds as exact rationals. -/
structure CacheEntry where
  created_at : Option ℚ
  ndvi : ℚ
  soil_moisture : ℚ
  rainfall_mm : ℚ
deriving DecidableEq

/-- Python `timedelta.days`: the floor of the duration in whole days
(86400 seconds each). -/
def timedelta_days (total_seconds : ℚ) : ℤ :=
  ⌊total_seconds / 86400⌋

/-- `GeospatialAgent.is_cache_expired` (geospatial_agent.py, lines
42-58) with `CACHE_TTL_DAYS = 7` (settings.py line 49): a falsy payload
or one without `created_at` is expired, otherwise expired iff
`(now - created_at).days >= 7`. -/
def is_cache_expired (cached_data : Option CacheEntry) (now : ℚ) : Bool :=
  match cached_data with
  | none => true
  | some entry =>
    match entry.created_at with
    | none => true
    | some created_at => decide (7 ≤ timedelta_days (now - created_at))

/-- `GeospatialAgent.get_cached_data` (geospatial_agent.py, lines
60-106) with the store lookup abstracted to its result: `row` is the
matching row if the query found one.  An expired row and an absent row
both come back as `none`. -/
def get_cached_data (row : Option CacheEntry) (now : ℚ) : Option CacheEntry :=
  match row with
  | some entry => if is_cache_expired (some entry) now = true then none else some entry
  | none => none

/-- C1: the decision cascade is an ordered first-match-wins policy.
With storm risk and a ready crop it yields (harvest_now, critical,
storm_risk); with storm risk and an unready crop (harvest_now, high,
storm_risk); otherwise critical spoilage gives (harvest_now, high),
high spoilage (harvest_now, medium), then an excellent or good market
opportunity with a ready crop gives sell_now with urgency medium
exactly when the price difference is at least 10 and low otherwise,
then medium spoilage with a ready crop gives (harvest_now, low), and
otherwise the result is (wait, low, optimal_timing) — each case holding
for every value of the signals the earlier rules do not constrain. -/
theorem determine_action_cascade_spec (cr sr : Bool) (sp mo : String) (pd : ℚ) :
    (sr = true → cr = true →
      determine_action_and_urgency cr sr sp mo pd = ("harvest_now", "critical", "storm_risk")) ∧
    (sr = true → cr = false →
      determine_action_and_urgency cr sr sp mo pd = ("harvest_now", "high", "storm_risk")) ∧
    (sr = false → sp = "critical" →
      determine_action_and_urgency cr sr sp mo pd = ("harvest_now", "high", "spoilage_risk")) ∧
    (sr = false → sp ≠ "critical" → sp = "high" →
      determine_action_and_urgency cr sr sp mo pd = ("harvest_now", "medium", "spoilage_risk")) ∧
    (sr = false → sp ≠ "critical" → sp ≠ "high" →
      (mo = "excellent" ∨ mo = "good") → cr = true →
      determine_action_and_urgency cr sr sp mo pd =
        ("sell_now", if 10 ≤ pd then "medium" else "low", "market_opportunity")) ∧
    (sr = false → sp ≠ "critical" → sp ≠ "high" →
      ¬((mo = "excellent" ∨ mo = "good") ∧ cr = true) → sp = "medium" → cr = true →
      determine_action_and_urgency cr sr sp mo pd = ("harvest_now", "low", "spoilage_risk")) ∧
    (sr = false → sp ≠ "critical" → sp ≠ "high" →
      ¬((mo = "excellent" ∨ mo = "good") ∧ cr = true) → ¬(sp = "medium" ∧ cr = true) →
      determine_action_and_urgency cr sr sp mo pd = ("wait", "low", "optimal_timing")) := by
  refine ⟨?_, ?_, ?_, ?_, ?_, ?_, ?_⟩ <;>
    · intros
      simp only [determine_action_and_urgency]
      split_ifs <;> simp_all

/-- C1 witness: the precedence instance of the spec, storm risk with a
ready crop dominates a good market and high spoilage. -/
theorem determine_action_cascade_spec_inst :
    determine_action_and_urgency true true "high" "good" 5 =
      ("harvest_now", "critical", "storm_risk") :=
  (determine_action_cascade_spec true true "high" "good" 5).1 rfl rfl

/-- C5: crop readiness is derived from NDVI alone: ready iff
`ndvi > 0.6`, a missing NDVI defaults to ready, and on the spec
instances 0.5 is not ready, 0.75 is ready. -/
theorem crop_readiness_spec :
    (∀ v : ℚ, assess_crop_readiness (some v) = true ↔ 6/10 < v) ∧
    assess_crop_readiness none = true ∧
    assess_crop_readiness (some (5/10)) = false ∧
    assess_crop_readiness (some (75/100)) = true := by
  refine ⟨fun v => ?_, rfl, ?_, ?_⟩
  · simp [assess_crop_readiness]
  · norm_num [assess_crop_readiness]
  · norm_num [assess_crop_readiness]

theorem data_quality_excellent (c : ℚ) : data_quality c = "excellent" ↔ 90 ≤ c := by
  unfold data_quality
  split_ifs with h1 h2 h3 <;> simp [h1]

theorem data_quality_good (c : ℚ) : data_quality c = "good" ↔ 75 ≤ c ∧ c < 90 := by
  unfold data_quality
  split_ifs with h1 h2 h3
  · simp [not_lt.2 h1]
  · push_neg at h1
    simp [h2, h1]
  · push_neg at h2
    simp [not_le.2 h2]
  · push_neg at h2
    simp [not_le.2 h2]

theorem data_quality_fair (c : ℚ) : data_quality c = "fair" ↔ 50 ≤ c ∧ c < 75 := by
  unfold data_quality
  split_ifs with h1 h2 h3
  · simp [not_lt.2 (le_trans (show (75:ℚ) ≤ 90 by norm_num) h1)]
  · simp [not_lt.2 h2]
  · push_neg at h2
    simp [h3, h2]
  · push_neg at h3
    simp [not_le.2 h3]

theorem data_quality_poor (c : ℚ) : data_quality c = "poor" ↔ c < 50 := by
  unfold data_quality
  split_ifs with h1 h2 h3
  · simp [not_lt.2 (le_trans (show (50:ℚ) ≤ 90 by norm_num) h1)]
  · simp [not_lt.2 (le_trans (show (50:ℚ) ≤ 75 by norm_num) h2)]
  · simp [not_lt.2 h3]
  · push_neg at h3
    simp [h3]

/-- C2 counterexample: with no satellite error, cached data present and
a cache age of 0 days, none of the three satellite-category deductions
fires — the deduction is 0, not one of 25, 15 or 10 — refuting the
claim that exactly one of the three applies on every call. -/
theorem satellite_deduction_zero_counterexample :
    satellite_deduction { has_error := false, cached := true, cache_age_days := 0 } = 0 ∧
    ¬(satellite_deduction { has_error := false, cached := true, cache_age_days := 0 } = 25 ∨
      satellite_deduction { has_error := false, cached := true, cache_age_days := 0 } = 15 ∨
      satellite_deduction { has_error := false, cached := true, cache_age_days := 0 } = 10) := by
  norm_num [satellite_deduction]

/-- C2 amended: the three satellite-category deductions are mutually
exclusive and at most one fires per call: a satellite error deducts 25,
else missing cached data deducts 15, else cached data older than 3 days
deducts 10, and otherwise — no error, cached data at most 3 days old —
no satellite deduction fires at all. -/
theorem satellite_deduction_cases (g : GeospatialData) :
    (g.has_error = true → satellite_deduction g = 25) ∧
    (g.has_error = false → g.cached = false → satellite_deduction g = 15) ∧
    (g.has_error = false → g.cached = true → 3 < g.cache_age_days →
      satellite_deduction g = 10) ∧
    (g.has_error = false → g.cached = true → g.cache_age_days ≤ 3 →
      satellite_deduction g = 0) := by
  refine ⟨?_, ?_, ?_, ?_⟩ <;> intros <;> simp_all [satellite_deduction]

/-- C2 amended witness: an errored satellite branch deducts 25. -/
theorem satellite_deduction_cases_inst :
    satellite_deduction { has_error := true, cached := false, cache_age_days := 0 } = 25 :=
  (satellite_deduction_cases _).1 rfl

/-- C3: for every combination of errors, fallback flags, cache states
and matched-rule or market presence across the four data branches, the
computed confidence lies in [0, 100], and the returned data quality is
the deterministic bucketing of that confidence: excellent iff at least
90, good iff in [75, 90), fair iff in [50, 75), poor iff below 50. -/
theorem confidence_range_and_quality_spec (g : GeospatialData) (w : WeatherData)
    (a : AgronomistData) (e : EconomistData) :
    0 ≤ (calculate_confidence_and_quality g w a e).1 ∧
    (calculate_confidence_and_quality g w a e).1 ≤ 100 ∧
    ((calculate_confidence_and_quality g w a e).2 = "excellent" ↔
      90 ≤ (calculate_confidence_and_quality g w a e).1) ∧
    ((calculate_confidence_and_quality g w a e).2 = "good" ↔
      75 ≤ (calculate_confidence_and_quality g w a e).1 ∧
        (calculate_confidence_and_quality g w a e).1 < 90) ∧
    ((calculate_confidence_and_quality g w a e).2 = "fair" ↔
      50 ≤ (calculate_confidence_and_quality g w a e).1 ∧
        (calculate_confidence_and_quality g w a e).1 < 75) ∧
    ((calculate_confidence_and_quality g w a e).2 = "poor" ↔
      (calculate_confidence_and_quality g w a e).1 < 50) := by
  simp only [calculate_confidence_and_quality]
  exact ⟨le_max_left 0 _, max_le (by norm_num) (min_le_left 100 _),
    data_quality_excellent _, data_quality_good _, data_quality_fair _, data_quality_poor _⟩

theorem satellite_deduction_bounds (g : GeospatialData) :
    0 ≤ satellite_deduction g ∧ satellite_deduction g ≤ 25 := by
  unfold satellite_deduction
  split_ifs <;> norm_num

theorem weather_deduction_bounds (w : WeatherData) :
    0 ≤ weather_deduction w ∧ weather_deduction w ≤ 20 := by
  unfold weather_deduction
  split_ifs <;> norm_num

theorem rules_deduction_bounds (a : AgronomistData) :
    0 ≤ rules_deduction a ∧ rules_deduction a ≤ 15 := by
  unfold rules_deduction
  split_ifs <;> norm_num

theorem market_deduction_bounds (e : EconomistData) :
    0 ≤ market_deduction e ∧ market_deduction e ≤ 10 := by
  unfold market_deduction
  split_ifs <;> norm_num

theorem raw_confidence_bounds (g : GeospatialData) (w : WeatherData)
    (a : AgronomistData) (e : EconomistData) :
    30 ≤ raw_confidence g w a e ∧ raw_confidence g w a e ≤ 100 := by
  obtain ⟨s1, s2⟩ := satellite_deduction_bounds g
  obtain ⟨w1, w2⟩ := weather_deduction_bounds w
  obtain ⟨a1, a2⟩ := rules_deduction_bounds a
  obtain ⟨e1, e2⟩ := market_deduction_bounds e
  unfold raw_confidence
  constructor <;> linarith

theorem calculate_confidence_eq_raw (g : GeospatialData) (w : WeatherData)
    (a : AgronomistData) (e : EconomistData) :
    calculate_confidence g w a e = raw_confidence g w a e := by
  obtain ⟨h1, h2⟩ := raw_confidence_bounds g w a e
  unfold calculate_confidence
  rw [min_eq_right h2, max_eq_right (by linarith)]

/-- C10: across every combination of branch errors, fallback flags,
cache states, matched-rule presence and market presence, the confidence
score is at least 30 — the deductions sum to at most 70 from a start of
100 — so the lower clamp at 0 is never active (the clamped confidence
equals the raw score) and the poor quality bucket is reachable only
through scores in [30, 50). -/
theorem confidence_lower_bound_spec (g : GeospatialData) (w : WeatherData)
    (a : AgronomistData) (e : EconomistData) :
    30 ≤ calculate_confidence g w a e ∧
    calculate_confidence g w a e = raw_confidence g w a e ∧
    (data_quality (calculate_confidence g w a e) = "poor" →
      30 ≤ calculate_confidence g w a e ∧ calculate_confidence g w a e < 50) := by
  have heq := calculate_confidence_eq_raw g w a e
  have hb := raw_confidence_bounds g w a e
  refine ⟨by rw [heq]; exact hb.1, heq, fun hp => ⟨by rw [heq]; exact hb.1, ?_⟩⟩
  exact (data_quality_poor _).1 hp

/-- C10 witness: with every branch errored the confidence is exactly
the minimum, 30, and lands in the poor bucket interval [30, 50). -/
theorem confidence_lower_bound_spec_inst :
    30 ≤ calculate_confidence ⟨true, false, 0⟩ ⟨true, false⟩ ⟨true, false⟩ ⟨true, false, false⟩ ∧
    calculate_confidence ⟨true, false, 0⟩ ⟨true, false⟩ ⟨true, false⟩ ⟨true, false, false⟩ < 50 :=
  (confidence_lower_bound_spec ⟨true, false, 0⟩ ⟨true, false⟩ ⟨true, false⟩
    ⟨true, false, false⟩).2.2 (by
      norm_num [data_quality, calculate_confidence, raw_confidence, satellite_deduction,
        weather_deduction, rules_deduction, market_deduction])

/-- C4: the storm assessor inspects only the first two forecast days in
order; a day is flagged iff its precipitation probability exceeds 0.6
and its amount exceeds 10 mm; the first flagged day wins, with window
"next 24 hours" for index 0 and "24-48 hours" for index 1; the impact
wording comes from the triggering day (severe iff amount over 50 mm or
wind over 40, else moderate iff amount over 25 mm, else light); and
with no flagged day the result is no risk with null window and impact. -/
theorem assess_storm_risk_spec (forecast : List ForecastDay)
    (d0 d1 : ForecastDay) (rest : List ForecastDay) :
    assess_storm_risk forecast = assess_storm_risk (forecast.take 2) ∧
    (∀ d : ForecastDay,
      is_storm_day d = true ↔ 6/10 < d.precip_probability ∧ 10 < d.precip_amount) ∧
    (is_storm_day d0 = true →
      assess_storm_risk (d0 :: d1 :: rest) =
        ⟨true, some ("next 24 hours"), some (storm_impact d0)⟩) ∧
    (is_storm_day d0 = false → is_storm_day d1 = true →
      assess_storm_risk (d0 :: d1 :: rest) =
        ⟨true, some ("24-48 hours"), some (storm_impact d1)⟩) ∧
    (is_storm_day d0 = false → is_storm_day d1 = false →
      assess_storm_risk (d0 :: d1 :: rest) = ⟨false, none, none⟩) ∧
    (∀ d : ForecastDay,
      ((50 < d.precip_amount ∨ 40 < d.wind_speed) →
        storm_impact d =
          "Heavy rain and strong winds expected. Harvest immediately to prevent crop damage.") ∧
      (¬(50 < d.precip_amount ∨ 40 < d.wind_speed) → 25 < d.precip_amount →
        storm_impact d =
          "Moderate rain expected. Consider harvesting soon to avoid quality loss.") ∧
      (¬(50 < d.precip_amount ∨ 40 < d.wind_speed) → ¬(25 < d.precip_amount) →
        storm_impact d =
          "Light to moderate rain expected. Monitor conditions closely.")) := by
  refine ⟨?_, fun d => ?_, fun h0 => ?_, fun h0 h1 => ?_, fun h0 h1 => ?_, fun d => ?_⟩
  · simp [assess_storm_risk, List.take_take]
  · simp [is_storm_day]
  · simp [assess_storm_risk, assess_storm_risk_loop, h0]
  · simp [assess_storm_risk, assess_storm_risk_loop, h0, h1]
  · simp [assess_storm_risk, assess_storm_risk_loop, h0, h1]
  · exact ⟨fun h => by simp [storm_impact, h],
      fun h h25 => by simp [storm_impact, h, h25],
      fun h h25 => by simp [storm_impact, h, h25]⟩

/-- C4 witness: a first day with probability 0.8, 30 mm of rain and
wind 10 triggers in the first slot with the moderate wording, whatever
the second day holds. -/
theorem assess_storm_risk_spec_inst :
    assess_storm_risk [⟨8/10, 30, 10⟩, ⟨0, 0, 0⟩] =
      ⟨true, some ("next 24 hours"), some (storm_impact ⟨8/10, 30, 10⟩)⟩ ∧
    storm_impact ⟨8/10, 30, 10⟩ =
      "Moderate rain expected. Consider harvesting soon to avoid quality loss." := by
  have h := assess_storm_risk_spec [] ⟨8/10, 30, 10⟩ ⟨0, 0, 0⟩ []
  refine ⟨h.2.2.1 (by norm_num [is_storm_day]), (h.2.2.2.2.2 ⟨8/10, 30, 10⟩).2.1 ?_ ?_⟩ <;>
    norm_num

/-- C6: a rule-store failure is answered with the built-in conservative
rules: for a crop lowercasing to tomato exactly one rule with 72
spoilage hours and high severity, for onion exactly one rule with id
default_onion, 168 spoilage hours and medium severity, and for any
other crop the empty list. -/
theorem default_rules_spec (crop : String) (err : String) :
    query_spoilage_rules (Except.error err) crop = get_default_rules crop ∧
    (py_lower crop = "tomato" →
      get_default_rules crop = [default_tomato_rule] ∧
      default_tomato_rule.spoilage_time_hours = 72 ∧
      default_tomato_rule.severity = "high") ∧
    (py_lower crop = "onion" →
      get_default_rules crop = [default_onion_rule] ∧
      default_onion_rule.id = "default_onion" ∧
      default_onion_rule.spoilage_time_hours = 168 ∧
      default_onion_rule.severity = "medium") ∧
    (py_lower crop ≠ "tomato" → py_lower crop ≠ "onion" →
      get_default_rules crop = []) := by
  refine ⟨rfl, fun h => ⟨?_, rfl, rfl⟩, fun h => ⟨?_, rfl, rfl, rfl⟩, fun h1 h2 => ?_⟩
  · simp [get_default_rules, h]
  · simp [get_default_rules, h]
  · simp [get_default_rules, h1, h2]

/-- C6 witness: the rule store down for onion yields exactly the
default_onion rule, 168 hours, medium severity. -/
theorem default_rules_spec_inst :
    query_spoilage_rules (Except.error ("database unavailable")) ("onion") =
      get_default_rules ("onion") ∧
    get_default_rules ("onion") = [default_onion_rule] ∧
    default_onion_rule.id = "default_onion" ∧
    default_onion_rule.spoilage_time_hours = 168 ∧
    default_onion_rule.severity = "medium" :=
  ⟨(default_rules_spec ("onion") ("database unavailable")).1,
    (default_rules_spec ("onion") ("database unavailable")).2.2.1 (by decide)⟩

/-- C7: the spoilage timeline maps the empty rule list to an unknown
timeline with null hours; for a non-empty list it takes the first rule,
copies its severity into the risk level, and renders the hours h as
"h hours" when below 24, as floor(h / 24) days with a plural s exactly
when that count exceeds 1 while below 168, and as floor(h / 168) weeks
with a plural s exactly when that count exceeds 1 from 168 up. -/
theorem spoilage_timeline_spec (r : SpoilageRule) (rest : List SpoilageRule) :
    calculate_spoilage_timeline [] =
      { time_to_spoilage_hours := none, time_to_spoilage_display := "Unknown",
        risk_level := "unknown" } ∧
    (calculate_spoilage_timeline (r :: rest)).risk_level = r.severity ∧
    (calculate_spoilage_timeline (r :: rest)).time_to_spoilage_hours =
      some r.spoilage_time_hours ∧
    (r.spoilage_time_hours < 24 →
      (calculate_spoilage_timeline (r :: rest)).time_to_spoilage_display =
        toString r.spoilage_time_hours ++ " hours") ∧
    (24 ≤ r.spoilage_time_hours → r.spoilage_time_hours < 168 →
      (calculate_spoilage_timeline (r :: rest)).time_to_spoilage_display =
        toString (r.spoilage_time_hours.fdiv 24) ++ " day" ++
          (if 1 < r.spoilage_time_hours.fdiv 24 then "s" else "")) ∧
    (168 ≤ r.spoilage_time_hours →
      (calculate_spoilage_timeline (r :: rest)).time_to_spoilage_display =
        toString (r.spoilage_time_hours.fdiv 168) ++ " week" ++
          (if 1 < r.spoilage_time_hours.fdiv 168 then "s" else "")) := by
  refine ⟨rfl, rfl, rfl, fun h => ?_, fun h1 h2 => ?_, fun h => ?_⟩
  · simp [calculate_spoilage_timeline, h]
  · simp [calculate_spoilage_timeline, not_lt.2 h1, h2]
  · simp [calculate_spoilage_timeline, not_lt.2 h,
      not_lt.2 (le_trans (show (24:ℤ) ≤ 168 by norm_num) h)]

/-- C7 witness: the 72-hour tomato fallback rule renders as 3 days. -/
theorem spoilage_timeline_spec_inst :
    (calculate_spoilage_timeline [default_tomato_rule]).time_to_spoilage_display =
      "3 days" := by
  have h := (spoilage_timeline_spec default_tomato_rule []).2.2.2.2.1 (by decide) (by decide)
  rw [h]
  decide

theorem max_by_key_mem (key : Market → ℚ) (l : List Market) :
    ∀ b : Market, max_by_key key b l ∈ b :: l := by
  induction l with
  | nil =>
    intro b
    simp [max_by_key]
  | cons m rest ih =>
    intro b
    simp only [max_by_key]
    rcases List.mem_cons.mp (ih (if key b < key m then m else b)) with h | h
    · rw [h]
      split_ifs
      · exact List.mem_cons_of_mem _ (List.mem_cons_self _ _)
      · exact List.mem_cons_self _ _
    · exact List.mem_cons_of_mem _ (List.mem_cons_of_mem _ h)

theorem le_max_by_key (key : Market → ℚ) (l : List Market) :
    ∀ b : Market, key b ≤ key (max_by_key key b l) ∧
      ∀ x ∈ l, key x ≤ key (max_by_key key b l) := by
  induction l with
  | nil =>
    intro b
    exact ⟨le_refl _, by simp⟩
  | cons m rest ih =>
    intro b
    simp only [max_by_key]
    obtain ⟨h1, h2⟩ := ih (if key b < key m then m else b)
    refine ⟨le_trans ?_ h1, fun x hx => ?_⟩
    · split_ifs with hc
      · exact le_of_lt hc
      · exact le_refl _
    · rcases List.mem_cons.mp hx with rfl | hx
      · refine le_trans ?_ h1
        split_ifs with hc
        · exact le_refl _
        · exact not_lt.1 hc
      · exact h2 x hx

theorem min_by_key_mem (key : Market → ℚ) (l : List Market) :
    ∀ b : Market, min_by_key key b l ∈ b :: l := by
  induction l with
  | nil =>
    intro b
    simp [min_by_key]
  | cons m rest ih =>
    intro b
    simp only [min_by_key]
    rcases List.mem_cons.mp (ih (if key m < key b then m else b)) with h | h
    · rw [h]
      split_ifs
      · exact List.mem_cons_of_mem _ (List.mem_cons_self _ _)
      · exact List.mem_cons_self _ _
    · exact List.mem_cons_of_mem _ (List.mem_cons_of_mem _ h)

theorem min_by_key_le (key : Market → ℚ) (l : List Market) :
    ∀ b : Market, key (min_by_key key b l) ≤ key b ∧
      ∀ x ∈ l, key (min_by_key key b l) ≤ key x := by
  induction l with
  | nil =>
    intro b
    exact ⟨le_refl _, by simp⟩
  | cons m rest ih =>
    intro b
    simp only [min_by_key]
    obtain ⟨h1, h2⟩ := ih (if key m < key b then m else b)
    refine ⟨le_trans h1 ?_, fun x hx => ?_⟩
    · split_ifs with hc
      · exact le_of_lt hc
      · exact le_refl _
    · rcases List.mem_cons.mp hx with rfl | hx
      · refine le_trans h1 ?_
        split_ifs with hc
        · exact le_refl _
        · exact not_lt.1 hc
      · exact h2 x hx

theorem round2_close (x : ℚ) : |round2 x - x| ≤ 1/100 := by
  unfold round2
  have h := abs_sub_round (100 * x)
  have e : ((round (100 * x) : ℤ) : ℚ) / 100 - x =
      (((round (100 * x) : ℤ) : ℚ) - 100 * x) / 100 := by
    ring
  rw [e, abs_div, abs_sub_comm, show |(100:ℚ)| = 100 from by norm_num,
    div_le_div_iff₀ (by norm_num) (by norm_num)]
  linarith

/-- C8: over any non-empty candidate list, the price-only strategy
returns a listed market of maximal price per kg, the distance-adjusted
strategy a listed market of maximal net price (price minus distance
times transport cost), the local market is a listed market of minimal
distance, and under either strategy the reported, two-decimal-rounded
price difference is within 1e-2 of best price minus local price. -/
theorem market_selection_spec (hd : Market) (tl : List Market) (c : ℚ) :
    select_highest_price_market hd tl ∈ hd :: tl ∧
    (∀ m ∈ hd :: tl,
      m.price_per_kg ≤ (select_highest_price_market hd tl).price_per_kg) ∧
    select_best_market_with_distance c hd tl ∈ hd :: tl ∧
    (∀ m ∈ hd :: tl,
      net_price c m ≤ net_price c (select_best_market_with_distance c hd tl)) ∧
    local_market hd tl ∈ hd :: tl ∧
    (∀ m ∈ hd :: tl, (local_market hd tl).distance_km ≤ m.distance_km) ∧
    |market_price_difference false c hd tl -
      ((select_highest_price_market hd tl).price_per_kg -
        (local_market hd tl).price_per_kg)| ≤ 1/100 ∧
    |market_price_difference true c hd tl -
      ((select_best_market_with_distance c hd tl).price_per_kg -
        (local_market hd tl).price_per_kg)| ≤ 1/100 := by
  obtain ⟨hp1, hp2⟩ := le_max_by_key (fun m => m.price_per_kg) tl hd
  obtain ⟨hn1, hn2⟩ := le_max_by_key (net_price c) tl hd
  obtain ⟨hd1, hd2⟩ := min_by_key_le (fun m => m.distance_km) tl hd
  refine ⟨max_by_key_mem _ tl hd, fun m hm => ?_, max_by_key_mem _ tl hd, fun m hm => ?_,
    min_by_key_mem _ tl hd, fun m hm => ?_, ?_, ?_⟩
  · rcases List.mem_cons.mp hm with rfl | hm
    · exact hp1
    · exact hp2 m hm
  · rcases List.mem_cons.mp hm with rfl | hm
    · exact hn1
    · exact hn2 m hm
  · rcases List.mem_cons.mp hm with rfl | hm
    · exact hd1
    · exact hd2 m hm
  · simpa [market_price_difference] using
      round2_close ((select_highest_price_market hd tl).price_per_kg -
        (local_market hd tl).price_per_kg)
  · simpa [market_price_difference] using
      round2_close ((select_best_market_with_distance c hd tl).price_per_kg -
        (local_market hd tl).price_per_kg)

/-- C8 witness, the spec scenario: Nagpur 25 at 10 km, Mumbai 30 at
150 km, Pune 28 at 120 km, transport cost 0.1 per km: every listed
price is at most the price-only best price, every net price at most the
distance-adjusted best net price, and the local market is at least as
close as Mumbai. -/
theorem market_selection_spec_inst :
    mumbai_market.price_per_kg ≤
      (select_highest_price_market nagpur_market [mumbai_market, pune_market]).price_per_kg ∧
    net_price (1/10) mumbai_market ≤
      net_price (1/10)
        (select_best_market_with_distance (1/10) nagpur_market [mumbai_market, pune_market]) ∧
    (local_market nagpur_market [mumbai_market, pune_market]).distance_km ≤
      mumbai_market.distance_km := by
  have h := market_selection_spec nagpur_market [mumbai_market, pune_market] (1/10)
  exact ⟨h.2.1 mumbai_market (by simp), h.2.2.2.1 mumbai_market (by simp),
    h.2.2.2.2.2.1 mumbai_market (by simp)⟩

/-- C9: a cache entry is expired iff the age in Python whole days (the
floor of the age over 86400 seconds) is at least 7 — an entry aged 6.99
days is not expired, one aged exactly 7 days is — and the cache lookup
answers both an absent row and an expired row with the same miss value,
so callers cannot tell the two apart. -/
theorem cache_expiry_spec (entry : CacheEntry) (t now : ℚ) :
    timedelta_days (now - t) = ⌊(now - t) / 86400⌋ ∧
    (entry.created_at = some t →
      (is_cache_expired (some entry) now = true ↔ 7 ≤ timedelta_days (now - t))) ∧
    get_cached_data none now = none ∧
    (is_cache_expired (some entry) now = true →
      get_cached_data (some entry) now = none) ∧
    (entry.created_at = some t → now - t = 699/100 * 86400 →
      is_cache_expired (some entry) now = false) ∧
    (entry.created_at = some t → now - t = 7 * 86400 →
      is_cache_expired (some entry) now = true) := by
  refine ⟨rfl, fun h => ?_, rfl, fun h => ?_, fun h hage => ?_, fun h hage => ?_⟩
  · simp [is_cache_expired, h]
  · simp [get_cached_data, h]
  · rw [is_cache_expired, h]
    simp only [timedelta_days, hage]
    norm_num
  · rw [is_cache_expired, h]
    simp only [timedelta_days, hage]
    norm_num

/-- C9 witness: an entry created at time 0 read exactly 7 days later is
expired and the lookup misses. -/
theorem cache_expiry_spec_inst :
    is_cache_expired (some ⟨some 0, 0, 0, 0⟩) 604800 = true ∧
    get_cached_data (some ⟨some 0, 0, 0, 0⟩) 604800 = none := by
  have h := cache_expiry_spec ⟨some 0, 0, 0, 0⟩ 0 604800
  have he : is_cache_expired (some ⟨some 0, 0, 0, 0⟩) 604800 = true :=
    h.2.2.2.2.2 rfl (by norm_num)
  exact ⟨he, h.2.2.2.1 he⟩

end AgriMitra
